import Mathlib

/-!
Verification of the ChattyAI backend (`backend/main.py`), a FastAPI service
that forwards chat prompts (optionally with an attached base64 image) to a
generative-AI provider and persists the conversation in a document store.

The embedding below translates the request handlers into pure Lean
functions.  External collaborators (the text model, the vision model, the
document store) are modelled as oracles carried in an `Env` record; the
handler additionally emits a trace of the provider and store calls it
issues, so that ordering and argument-shape properties can be stated.
-/

namespace ChattyAI

/-- One entry of the Gemini-style history list built by the handler:
`{"role": role, "parts": [content]}` (main.py lines 100-103). -/
structure GeminiMsg where
  role : String
  parts : List String
deriving Repr, DecidableEq

/-- One caller-supplied `{role, content}` dictionary from `chat_history`.
Both keys are read with `dict.get`, so each may be absent (`None`). -/
structure HistoryEntry where
  role : Option String
  content : Option String
deriving Repr, DecidableEq

/-- The `ChatRequest` pydantic model (main.py lines 67-72).  `chat_history`
defaults to `[]`; a history that is explicitly `null` is out of scope. -/
structure ChatRequest where
  prompt : String
  user_id : String
  chat_id : Option String := none
  screenshot : Option String := none
  chat_history : List HistoryEntry := []
deriving Repr, DecidableEq

/-- The `ChatResponse` pydantic model (main.py lines 74-76). -/
structure ChatResponse where
  response : String
  chat_id : String
deriving Repr, DecidableEq

/-- Python truthiness of an `Optional[str]`: `None` and `""` are falsy. -/
def strTruthy : Option String → Bool
  | some s => s != ""
  | none => false

/-- Value of a character in the standard base64 alphabet, if any. -/
def b64Val (c : Char) : Option Nat :=
  if 'A' ≤ c ∧ c ≤ 'Z' then some (c.toNat - 65)
  else if 'a' ≤ c ∧ c ≤ 'z' then some (c.toNat - 97 + 26)
  else if '0' ≤ c ∧ c ≤ '9' then some (c.toNat - 48 + 52)
  else if c = '+' then some 62
  else if c = '/' then some 63
  else none

/-- Fueled little-endian-to-big-endian decimal rendering helper. -/
def toDecimalAux : Nat → Nat → List Char
  | 0, _ => []
  | fuel + 1, n =>
      if n = 0 then [] else toDecimalAux fuel (n / 10) ++ [Nat.digitChar (n % 10)]

/-- Model of Python's `str(n)` for a non-negative integer: ordinary decimal
rendering, `"0"` for zero. -/
def pyStrOfNat (n : Nat) : String :=
  if n = 0 then "0" else ⟨toDecimalAux n n⟩

/-- Decimal decoder used to prove `pyStrOfNat` injective. -/
def decDecode (l : List Char) : Nat :=
  l.foldl (fun acc c => acc * 10 + (c.toNat - 48)) 0

/-- The character loop of CPython's `binascii.a2b_base64` in legacy
(non-strict) mode, the worker behind `base64.b64decode(s)` with the default
`validate=False`.  State: `quadPos` (position inside the current quad,
0-3), `leftchar` (bits carried from the previous character), `pads` (pad
characters seen since the last data character), `acc` (bytes emitted).
Per character: a `'='` completes the input (success with the bytes so far)
when `quadPos ≥ 2` and the pads seen reach a full quad, and is otherwise
ignored except for the pad count; a character outside the base64 alphabet
is skipped (and does not reset the pad count); a data character resets the
pad count and steps the quad machine, emitting a byte at positions 1, 2
and 3.  At end of input, `quadPos = 0` succeeds, `quadPos = 1` raises the
`cannot be 1 more than a multiple of 4` error (the reported count equals
the number of data characters), and `quadPos ∈ {2, 3}` raises
`Incorrect padding`.  Error texts are CPython's, since the handler
interpolates `str(e)` into its HTTP detail. -/
def a2bBase64 : List Char → Nat → Nat → Nat → List Nat → Except String (List Nat)
  | [], quadPos, _leftchar, _pads, acc =>
      if quadPos = 0 then Except.ok acc
      else if quadPos = 1 then
        Except.error ("Invalid base64-encoded string: number of data characters (" ++
          pyStrOfNat (acc.length / 3 * 4 + 1) ++ ") cannot be 1 more than a multiple of 4")
      else Except.error "Incorrect padding"
  | c :: rest, quadPos, leftchar, pads, acc =>
      if c = '=' then
        if 2 ≤ quadPos ∧ 4 ≤ quadPos + (pads + 1) then Except.ok acc
        else a2bBase64 rest quadPos leftchar (pads + 1) acc
      else
        match b64Val c with
        | none => a2bBase64 rest quadPos leftchar pads acc
        | some v =>
          match quadPos with
          | 0 => a2bBase64 rest 1 v 0 acc
          | 1 => a2bBase64 rest 2 (v % 16) 0 (acc ++ [leftchar * 4 + v / 16])
          | 2 => a2bBase64 rest 3 (v % 4) 0 (acc ++ [leftchar * 16 + v / 4])
          | _ => a2bBase64 rest 0 0 0 (acc ++ [leftchar * 64 + v])

/-- Model of Python's `base64.b64decode(s)` on a `str` argument with the
default `validate=False`: the string must be ASCII (else
`ValueError('string argument should contain only ASCII characters')`),
then the bytes go through legacy-mode `binascii.a2b_base64`. -/
def pyB64Decode (s : String) : Except String (List Nat) :=
  if ¬ s.data.all (fun c => c.toNat < 128) then
    Except.error "string argument should contain only ASCII characters"
  else a2bBase64 s.data 0 0 0 []

/-- The characters after the first `','`, or `none` when no comma occurs
(i.e. Python's `"," in s` is false). -/
def afterFirstComma (l : List Char) : Option (List Char) :=
  match l.dropWhile (fun c => c != ',') with
  | [] => none
  | _ :: rest => some rest

/-- The payload the handler actually decodes (main.py line 111):
`request.screenshot.split(",")[1] if "," in request.screenshot else request.screenshot`.
`split(",")[1]` is the segment between the first and the second comma (or
the end of the string) — with two or more commas this is *not* everything
after the first comma. -/
def pySplitCommaIndex1 (s : String) : String :=
  match afterFirstComma s.data with
  | none => s
  | some rest => ⟨rest.takeWhile (fun c => c != ',')⟩

/-- The screenshot payload as the specification's wording describes it:
everything after the first comma when one is present (the "data-URI prefix
up to the first comma" is stripped), the whole string otherwise.  Declared
only to compare the spec's reading with `pySplitCommaIndex1`. -/
def stripToFirstComma (s : String) : String :=
  match afterFirstComma s.data with
  | none => s
  | some rest => ⟨rest⟩

/-- One element of the `contents` list passed to the vision model
(main.py line 114): the prompt string or the image dictionary. -/
inductive GenPart
  | text (s : String)
  | image (mimeType : String) (data : List Nat)
deriving Repr, DecidableEq

/-- A document-store write issued by the `/chat` handler. -/
inductive StoreOp
  | addMessage (userId chatId content role : String) (hasImage : Bool)
  | setChatMetadata (userId chatId title lastMessage : String) (merge : Bool)
deriving Repr, DecidableEq

/-- One externally visible call issued while handling `/chat`. -/
inductive Event
  | visionGenerate (contents : List GenPart)
  | startChat (history : List GeminiMsg)
  | sendMessage (prompt : String)
  | storeAttempt (op : StoreOp)
deriving Repr, DecidableEq

/-- Outcome of a request: a 200 body, or an `HTTPException (status, detail)`. -/
inductive HttpResult
  | ok (body : ChatResponse)
  | error (status : Nat) (detail : String)
deriving Repr, DecidableEq

/-- The process environment a request runs in: which global clients were
initialized (`model`, `vision_model`, `db` are `None` when not), the wall
clock in milliseconds (so `int(time.time())` is `timeMillis / 1000`), and
oracles for the provider responses and for which store write raises. -/
structure Env where
  modelAvailable : Bool
  visionAvailable : Bool
  dbAvailable : Bool
  timeMillis : Nat
  textGen : List GeminiMsg → String → Except String String
  visionGen : List GenPart → Except String String
  storeFails : Nat → Option String

/-- `str()` of the `AttributeError` CPython raises when an attribute is
looked up on `None`. -/
def noneAttrError (attr : String) : String :=
  "'NoneType' object has no attribute '" ++ attr ++ "'"

/-- `str()` of a fastapi/starlette `HTTPException`: `"{status_code}: {detail}"`. -/
def strHTTPException (status : Nat) (detail : String) : String :=
  toString status ++ ": " ++ detail

/-- The history reshaping loop (main.py lines 100-103): each entry becomes
`{"role": "user" if msg.get("role") == "user" else "model", "parts": [msg.get("content", "")]}`. -/
def historyOf (ch : List HistoryEntry) : List GeminiMsg :=
  ch.map fun m =>
    { role := if m.role = some "user" then "user" else "model",
      parts := [m.content.getD ""] }

/-- main.py line 97: `request.chat_id if request.chat_id else f"chat_{int(time.time())}"`. -/
def chatIdOf (env : Env) (req : ChatRequest) : String :=
  match req.chat_id with
  | some s => if s != "" then s else "chat_" ++ pyStrOfNat (env.timeMillis / 1000)
  | none => "chat_" ++ pyStrOfNat (env.timeMillis / 1000)

/-- The truncation expression used for `title` (threshold 50) and
`last_message` (threshold 100): `s[:n] + "..." if len(s) > n else s`. -/
def pyTruncate (n : Nat) (s : String) : String :=
  if s.length > n then s.take n ++ "..." else s

/-- The three store writes of the persistence block (main.py lines 136-156),
in program order: user message, assistant message, metadata upsert. -/
def persistOps (req : ChatRequest) (chatId aiResponse : String) : List StoreOp :=
  [ StoreOp.addMessage req.user_id chatId req.prompt "user" (strTruthy req.screenshot),
    StoreOp.addMessage req.user_id chatId aiResponse "assistant" false,
    StoreOp.setChatMetadata req.user_id chatId
      (pyTruncate 50 req.prompt) (pyTruncate 100 aiResponse) true ]

/-- Issue store writes in order; the `i`-th write raises when the oracle says
so, in which case it was still attempted but nothing after it is issued
(the exception is caught and only logged, main.py lines 157-159). -/
def runStoreOps (fails : Nat → Option String) : Nat → List StoreOp → List StoreOp
  | _, [] => []
  | i, op :: rest =>
    match fails i with
    | some _ => [op]
    | none => op :: runStoreOps fails (i + 1) rest

/-- The vision branch (main.py lines 108-119).  The result's error carries
`str(e)` of the exception that escapes to the handler's outer
`except Exception` block: every failure inside this branch is first caught
by the inner handler and re-raised as
`HTTPException(500, "Vision model error: ...")`, whose `str()` is
`"500: Vision model error: ..."`. -/
def visionBranch (env : Env) (req : ChatRequest) (shot : String) :
    Except String String × List Event :=
  match pyB64Decode (pySplitCommaIndex1 shot) with
  | Except.error e =>
      (Except.error (strHTTPException 500 ("Vision model error: " ++ e)), [])
  | Except.ok image_data =>
      let contents := [GenPart.text req.prompt, GenPart.image "image/jpeg" image_data]
      if env.visionAvailable then
        match env.visionGen contents with
        | Except.error e =>
            (Except.error (strHTTPException 500 ("Vision model error: " ++ e)),
             [Event.visionGenerate contents])
        | Except.ok t => (Except.ok t, [Event.visionGenerate contents])
      else
        (Except.error (strHTTPException 500
          ("Vision model error: " ++ noneAttrError "generate_content")), [])

/-- The text branch (main.py lines 121-124): `model.start_chat(history=history)`
then `chat.send_message(request.prompt)`.  When `model` is `None` the
attribute lookup raises `AttributeError` before any provider call. -/
def textBranch (env : Env) (history : List GeminiMsg) (prompt : String) :
    Except String String × List Event :=
  if env.modelAvailable then
    match env.textGen history prompt with
    | Except.error e => (Except.error e, [Event.startChat history, Event.sendMessage prompt])
    | Except.ok t => (Except.ok t, [Event.startChat history, Event.sendMessage prompt])
  else (Except.error (noneAttrError "start_chat"), [])

/-- The AI step of the handler: branch on the truthiness of `screenshot`. -/
def aiStep (env : Env) (req : ChatRequest) : Except String String × List Event :=
  if strTruthy req.screenshot then visionBranch env req (req.screenshot.getD "")
  else textBranch env (historyOf req.chat_history) req.prompt

/-- The `POST /chat` handler (main.py lines 91-164).  Returns the HTTP
outcome and the trace of provider and store calls issued.  The
`"AI models not initialized"` rejection happens before the `try` block;
every other exception is caught there and converted to
`HTTPException(500, "An error occurred: " + str(e))`; store failures are
caught inside the persistence block and do not affect the response. -/
def chat (env : Env) (req : ChatRequest) : HttpResult × List Event :=
  if ¬ env.modelAvailable ∧ ¬ env.visionAvailable then
    (HttpResult.error 500 "AI models not initialized", [])
  else
    match aiStep env req with
    | (Except.error e, aiEvents) =>
        (HttpResult.error 500 ("An error occurred: " ++ e), aiEvents)
    | (Except.ok ai_response, aiEvents) =>
        let chat_id := chatIdOf env req
        let storeEvents :=
          if env.dbAvailable then
            (runStoreOps env.storeFails 0 (persistOps req chat_id ai_response)).map
              Event.storeAttempt
          else []
        (HttpResult.ok ⟨ai_response, chat_id⟩, aiEvents ++ storeEvents)

/-- The provider-call events of a trace (everything but store writes). -/
def providerEvents (tr : List Event) : List Event :=
  tr.filter fun e =>
    match e with
    | Event.storeAttempt _ => false
    | _ => true

/-- The store writes of a trace, in issue order. -/
def storeOpsOf (tr : List Event) : List StoreOp :=
  tr.filterMap fun e =>
    match e with
    | Event.storeAttempt op => some op
    | _ => none

/-- HTTP 4xx. -/
def isClientError (status : Nat) : Bool :=
  400 ≤ status && status < 500

/-- A message document's `timestamp` field as the read path sees it:
absent/`None` (falsy), the uncommitted `SERVER_TIMESTAMP` sentinel, or a
committed datetime whose `isoformat()` is `isoValue`. -/
inductive PyTimestamp
  | null
  | serverSentinel
  | committed (isoValue : String)
deriving Repr, DecidableEq

/-- Python truthiness of the timestamp field: only `None` is falsy; the
sentinel and any datetime are truthy objects. -/
def tsTruthy : PyTimestamp → Bool
  | PyTimestamp.null => false
  | _ => true

/-- A message document as returned by the store's stream. -/
structure StoredMessage where
  id : String
  content : String
  role : String
  timestamp : PyTimestamp
  has_image : Bool
deriving Repr, DecidableEq

/-- One entry of the `message_list` the read handler builds: the document
fields plus the document id, with the formatted timestamp. -/
structure MessageOut where
  id : String
  content : String
  role : String
  timestamp : Option String
  has_image : Bool
deriving Repr, DecidableEq

/-- Model of the check `isinstance(ts, firestore.SERVER_TIMESTAMP)`
(main.py line 205).  `firestore.SERVER_TIMESTAMP` is a `Sentinel`
*instance*, not a type, and CPython's `isinstance` raises
`TypeError` whenever its second argument is not a type, whatever the first
argument is.  The error text is CPython's message. -/
def isinstanceOfServerTimestampSentinel (_ts : PyTimestamp) : Except String Bool :=
  Except.error "isinstance() arg 2 must be a type, a tuple of types, or a union"

/-- The per-message body of the read loop (main.py lines 199-211): annotate
with the id, and when the timestamp field is truthy run the
`isinstance` check to decide between `datetime.now().isoformat()` and
`ts.isoformat()`.  An error here propagates to the route's outer
`except Exception` handler. -/
def formatStoredMessage (nowIso : String) (m : StoredMessage) : Except String MessageOut :=
  if tsTruthy m.timestamp then
    match isinstanceOfServerTimestampSentinel m.timestamp with
    | Except.error e => Except.error e
    | Except.ok b =>
        if b then Except.ok ⟨m.id, m.content, m.role, some nowIso, m.has_image⟩
        else
          match m.timestamp with
          | PyTimestamp.committed v => Except.ok ⟨m.id, m.content, m.role, some v, m.has_image⟩
          | PyTimestamp.serverSentinel =>
              Except.error "'Sentinel' object has no attribute 'isoformat'"
          | PyTimestamp.null => Except.ok ⟨m.id, m.content, m.role, none, m.has_image⟩
  else Except.ok ⟨m.id, m.content, m.role, none, m.has_image⟩

/-- The read loop over the streamed messages, preserving stream order. -/
def buildMessageList (nowIso : String) : List StoredMessage → Except String (List MessageOut)
  | [] => Except.ok []
  | m :: rest =>
    match formatStoredMessage nowIso m with
    | Except.error e => Except.error e
    | Except.ok out =>
      match buildMessageList nowIso rest with
      | Except.error e => Except.error e
      | Except.ok outs => Except.ok (out :: outs)

/-- The `GET /chats/{user_id}/{chat_id}` handler (main.py lines 192-216).
`stream` is the message stream the store returns for the
`order_by("timestamp")` query (ordering is performed by the store);
`nowIso` is `datetime.now().isoformat()` at request-handling time.  Any
exception inside the loop is converted to
`HTTPException(500, "An error occurred: " + str(e))`. -/
def get_chat_messages (dbAvailable : Bool) (nowIso : String)
    (stream : List StoredMessage) : Except (Nat × String) (List MessageOut) :=
  if dbAvailable then
    match buildMessageList nowIso stream with
    | Except.error e => Except.error (500, "An error occurred: " ++ e)
    | Except.ok msgs => Except.ok msgs
  else Except.error (500, "Database not initialized")

/-- A text-model oracle that always answers `"HELLO"`. -/
def okTextGen : List GeminiMsg → String → Except String String :=
  fun _ _ => Except.ok "HELLO"

/-- A vision-model oracle that always answers `"VISION"`. -/
def okVisionGen : List GenPart → Except String String :=
  fun _ => Except.ok "VISION"

/-- A fully initialized process at wall clock 100.1 s, with reliable store. -/
def baseEnv : Env :=
  { modelAvailable := true, visionAvailable := true, dbAvailable := true,
    timeMillis := 100100, textGen := okTextGen, visionGen := okVisionGen,
    storeFails := fun _ => none }

/-- Neither AI client was initialized. -/
def envNone : Env := { baseEnv with modelAvailable := false, visionAvailable := false }

/-- Only the text model was initialized. -/
def envTextOnly : Env := { baseEnv with visionAvailable := false }

/-- Only the vision model was initialized. -/
def envVisionOnly : Env := { baseEnv with modelAvailable := false }

/-- The store client was not initialized. -/
def envNoDb : Env := { baseEnv with dbAvailable := false }

/-- The first store write (the user-message append) raises. -/
def envStoreFail0 : Env :=
  { baseEnv with storeFails := fun i => if i = 0 then some "deadline exceeded" else none }

/-- The second store write (the assistant-message append) raises. -/
def envStoreFail1 : Env :=
  { baseEnv with storeFails := fun i => if i = 1 then some "deadline exceeded" else none }

/-- Same process, a request arriving in a different second (230.5 s). -/
def envLater : Env := { baseEnv with timeMillis := 230500 }

/-- Same process, a request arriving later within the same second (100.9 s). -/
def envSameSecond : Env := { baseEnv with timeMillis := 100900 }

/-- A plain text request with no chat id. -/
def reqHi : ChatRequest := { prompt := "Hi", user_id := "u1" }

/-- A request with a well-formed base64 screenshot. -/
def reqShot : ChatRequest := { prompt := "look", user_id := "u1", screenshot := some "AAAA" }

/-- A request whose screenshot payload is malformed base64. -/
def reqShotBad : ChatRequest := { prompt := "look", user_id := "u1", screenshot := some "AB" }

/-- A request whose screenshot holds two commas: the segment between the
first and second commas is valid base64, while everything after the first
comma is not. -/
def reqShotComma : ChatRequest :=
  { prompt := "look", user_id := "u1", screenshot := some "x,AAAA,XX" }

/-- A text request carrying prior history and an explicit chat id. -/
def reqHist : ChatRequest :=
  { prompt := "Hi", user_id := "u1", chat_id := some "c1",
    chat_history := [⟨some "assistant", some "hey"⟩, ⟨some "user", none⟩] }

/-- A request that supplies the empty string as chat id. -/
def reqEmptyId : ChatRequest := { prompt := "Hi", user_id := "u1", chat_id := some "" }

/-! ### Helper lemmas -/

theorem digitChar_toNat_sub (k : Nat) (h : k < 10) : (Nat.digitChar k).toNat - 48 = k := by
  interval_cases k <;> decide

theorem decDecode_append_digit (l : List Char) (c : Char) :
    decDecode (l ++ [c]) = decDecode l * 10 + (c.toNat - 48) := by
  simp [decDecode, List.foldl_append]

theorem decDecode_toDecimalAux :
    ∀ fuel n : Nat, n ≤ fuel → decDecode (toDecimalAux fuel n) = n := by
  intro fuel
  induction fuel with
  | zero =>
      intro n h
      have : n = 0 := by omega
      simp [this, toDecimalAux, decDecode]
  | succ fuel ih =>
      intro n h
      by_cases h0 : n = 0
      · simp [h0, toDecimalAux, decDecode]
      · have hle : n / 10 ≤ fuel := by omega
        rw [toDecimalAux, if_neg h0, decDecode_append_digit, ih (n / 10) hle,
          digitChar_toNat_sub (n % 10) (by omega)]
        omega

theorem decDecode_pyStrOfNat (n : Nat) : decDecode (pyStrOfNat n).data = n := by
  by_cases h0 : n = 0
  · subst h0; rfl
  · rw [pyStrOfNat, if_neg h0]
    exact decDecode_toDecimalAux n n (Nat.le_refl n)

theorem pyStrOfNat_inj {m n : Nat} (h : pyStrOfNat m = pyStrOfNat n) : m = n := by
  have h2 := congrArg (fun s => decDecode s.data) h
  simpa [decDecode_pyStrOfNat] using h2

theorem chat_prepend_inj {a b : String} (h : "chat_" ++ a = "chat_" ++ b) : a = b := by
  apply String.ext
  have hd := congrArg String.data h
  rw [String.data_append, String.data_append] at hd
  exact List.append_inj_right hd rfl

theorem anErrorOccurred_ne (e : String) :
    "An error occurred: " ++ e ≠ "AI models not initialized" := by
  intro h
  have h2 : ("An error occurred: " ++ e).data[1]? =
      ("AI models not initialized" : String).data[1]? := by rw [h]
  have h3 : ("An error occurred: " ++ e).data[1]? = some 'n' := by
    rw [String.data_append, List.getElem?_append_left (by decide)]
    decide
  rw [h3] at h2
  exact absurd h2 (by decide)

theorem aiStep_error_of_unavailable (env : Env) (req : ChatRequest)
    (hm : env.modelAvailable = false) (hv : env.visionAvailable = false) :
    ∃ e, (aiStep env req).fst = Except.error e := by
  unfold aiStep
  by_cases hs : strTruthy req.screenshot
  · rw [if_pos hs]
    unfold visionBranch
    cases hdec : pyB64Decode (pySplitCommaIndex1 (req.screenshot.getD "")) with
    | error e => exact ⟨_, rfl⟩
    | ok bs => simp [hv]
  · rw [if_neg hs]
    unfold textBranch
    simp [hm]

theorem chat_guard_false (env : Env) (req : ChatRequest) (t : String) (evs : List Event)
    (h : aiStep env req = (Except.ok t, evs)) :
    ¬ (¬ env.modelAvailable ∧ ¬ env.visionAvailable) := by
  rintro ⟨hm, hv⟩
  obtain ⟨e, he⟩ :=
    aiStep_error_of_unavailable env req (by simpa using hm) (by simpa using hv)
  rw [h] at he
  simp at he

theorem chat_of_aiStep_ok (env : Env) (req : ChatRequest) (t : String) (evs : List Event)
    (h : aiStep env req = (Except.ok t, evs)) :
    chat env req = (HttpResult.ok ⟨t, chatIdOf env req⟩,
      evs ++ (if env.dbAvailable then
        (runStoreOps env.storeFails 0 (persistOps req (chatIdOf env req) t)).map
          Event.storeAttempt
      else [])) := by
  rw [chat, if_neg (chat_guard_false env req t evs h), h]

theorem chat_of_aiStep_error (env : Env) (req : ChatRequest) (e : String) (evs : List Event)
    (hguard : ¬ (¬ env.modelAvailable ∧ ¬ env.visionAvailable))
    (h : aiStep env req = (Except.error e, evs)) :
    chat env req = (HttpResult.error 500 ("An error occurred: " ++ e), evs) := by
  rw [chat, if_neg hguard, h]

theorem aiStep_no_store (env : Env) (req : ChatRequest) :
    ∀ op, Event.storeAttempt op ∉ (aiStep env req).snd := by
  intro op
  unfold aiStep
  by_cases hs : strTruthy req.screenshot
  · rw [if_pos hs]
    unfold visionBranch
    cases hdec : pyB64Decode (pySplitCommaIndex1 (req.screenshot.getD "")) with
    | error e => simp
    | ok bs =>
        by_cases hv : env.visionAvailable
        · simp only [hv, if_true]
          cases hgen : env.visionGen
              [GenPart.text req.prompt, GenPart.image "image/jpeg" bs] <;> simp
        · simp [hv]
  · rw [if_neg hs]
    unfold textBranch
    by_cases hm : env.modelAvailable
    · simp only [hm, if_true]
      cases hgen : env.textGen (historyOf req.chat_history) req.prompt <;> simp
    · simp [hm]

theorem storeOpsOf_append (a b : List Event) :
    storeOpsOf (a ++ b) = storeOpsOf a ++ storeOpsOf b := by
  simp [storeOpsOf]

theorem storeOpsOf_map_store (l : List StoreOp) :
    storeOpsOf (l.map Event.storeAttempt) = l := by
  induction l with
  | nil => rfl
  | cons op rest ih => simp [storeOpsOf] at ih ⊢; exact ih

theorem storeOpsOf_eq_nil (evs : List Event)
    (h : ∀ op, Event.storeAttempt op ∉ evs) : storeOpsOf evs = [] := by
  induction evs with
  | nil => rfl
  | cons e rest ih =>
      have he : ∀ op, Event.storeAttempt op ∉ rest := by
        intro op hop
        exact h op (List.mem_cons_of_mem _ hop)
      cases e with
      | storeAttempt op => exact absurd (List.mem_cons_self _ _) (h op)
      | visionGenerate cs => simpa [storeOpsOf] using ih he
      | startChat hh => simpa [storeOpsOf] using ih he
      | sendMessage p => simpa [storeOpsOf] using ih he

theorem providerEvents_append (a b : List Event) :
    providerEvents (a ++ b) = providerEvents a ++ providerEvents b := by
  simp [providerEvents]

theorem providerEvents_map_store (l : List StoreOp) :
    providerEvents (l.map Event.storeAttempt) = [] := by
  induction l with
  | nil => rfl
  | cons op rest _ => simp [providerEvents]

theorem runStoreOps_prefixOf (fails : Nat → Option String) :
    ∀ (i : Nat) (l : List StoreOp), runStoreOps fails i l <+: l := by
  intro i l
  induction l generalizing i with
  | nil => simp [runStoreOps]
  | cons op rest ih =>
      rw [runStoreOps]
      cases fails i with
      | some m => exact ⟨rest, rfl⟩
      | none =>
          obtain ⟨t, ht⟩ := ih (i + 1)
          exact ⟨t, by rw [List.cons_append, ht]⟩

theorem pyTruncate_spec (n : Nat) (s : String) :
    pyTruncate n s = if s.length ≤ n then s else s.take n ++ "..." := by
  unfold pyTruncate
  by_cases h : s.length ≤ n
  · rw [if_neg (by omega), if_pos h]
  · rw [if_pos (by omega), if_neg h]

theorem chat_snd_ok_form (env : Env) (req : ChatRequest) (t : String) (evs : List Event)
    (h : aiStep env req = (Except.ok t, evs)) :
    ∃ l : List StoreOp, (chat env req).snd = evs ++ l.map Event.storeAttempt := by
  rw [chat_of_aiStep_ok env req t evs h]
  by_cases hdb : env.dbAvailable
  · exact ⟨runStoreOps env.storeFails 0 (persistOps req (chatIdOf env req) t),
      by simp [hdb]⟩
  · exact ⟨[], by simp [hdb]⟩

/-! ### The claims -/

/-- C1: for every `POST /chat` request whose AI call succeeded, the handler
returns a 200 body carrying the AI text and the chat id, whatever the store
availability (`env.dbAvailable`) and whichever persistence operation raises
(`env.storeFails`): the persistence failure never reaches the caller. -/
theorem C1_store_failures_never_propagate (env : Env) (req : ChatRequest) (t : String)
    (hai : (aiStep env req).fst = Except.ok t) :
    (chat env req).fst = HttpResult.ok ⟨t, chatIdOf env req⟩ := by
  have h : aiStep env req = (Except.ok t, (aiStep env req).snd) := by rw [← hai]
  rw [chat_of_aiStep_ok env req t _ h]

/-- C1 witness: a request in a process whose first store write raises still
gets the 200 body with the AI text and the generated chat id. -/
theorem C1_store_failures_never_propagate_witness :
    (aiStep envStoreFail0 reqHi).fst = Except.ok "HELLO" ∧
    (chat envStoreFail0 reqHi).fst = HttpResult.ok ⟨"HELLO", "chat_100"⟩ :=
  ⟨rfl, C1_store_failures_never_propagate envStoreFail0 reqHi "HELLO" rfl⟩

/-- C4 (code bug): for a `GET /chats/{user_id}/{chat_id}` request with the
store available, any message whose `timestamp` field is set (committed
datetime or pending sentinel alike) makes the handler raise: the source
checks `isinstance(ts, firestore.SERVER_TIMESTAMP)` whose second argument
is a `Sentinel` instance, not a type, so CPython raises `TypeError` and the
route answers 500 instead of the claimed message list with resolved
ISO-8601 timestamps.  Only a message with a null timestamp survives. -/
theorem C4_timestamp_resolution_bug :
    get_chat_messages true "2025-06-01T12:00:00"
        [⟨"m1", "hello", "user", PyTimestamp.committed "2024-01-01T00:00:00", false⟩] =
      Except.error (500,
        "An error occurred: isinstance() arg 2 must be a type, a tuple of types, or a union") ∧
    get_chat_messages true "2025-06-01T12:00:00"
        [⟨"m2", "hi", "assistant", PyTimestamp.serverSentinel, false⟩] =
      Except.error (500,
        "An error occurred: isinstance() arg 2 must be a type, a tuple of types, or a union") ∧
    get_chat_messages true "2025-06-01T12:00:00"
        [⟨"m0", "hey", "user", PyTimestamp.null, false⟩] =
      Except.ok [⟨"m0", "hey", "user", none, false⟩] :=
  ⟨rfl, rfl, rfl⟩

/-- C5 counterexample: two chat-creation requests handled at distinct
instants of the same process lifetime (100.1 s and 100.9 s) both receive
the generated id `"chat_100"`, so generated identifiers are not distinct
across two requests; moreover a supplied *empty* chat id is not returned
unchanged but replaced by a generated one. -/
theorem C5_counterexample :
    baseEnv.timeMillis ≠ envSameSecond.timeMillis ∧
    (chat baseEnv reqHi).fst = HttpResult.ok ⟨"HELLO", "chat_100"⟩ ∧
    (chat envSameSecond reqHi).fst = HttpResult.ok ⟨"HELLO", "chat_100"⟩ ∧
    reqEmptyId.chat_id = some "" ∧
    (chat baseEnv reqEmptyId).fst = HttpResult.ok ⟨"HELLO", "chat_100"⟩ :=
  ⟨by decide, rfl, rfl, rfl, rfl⟩

/-- C5 (amended): a supplied non-empty `chat_id` is returned unchanged; when
`chat_id` is absent (or empty, which Python treats as absent) the handler
returns the generated id `chat_<floor-seconds>`; and two chat-creation
requests receive distinct generated identifiers provided they are handled
at distinct integer seconds of request time. -/
theorem C5_amended_chat_id (env1 env2 : Env) (req1 req2 : ChatRequest) (t1 : String)
    (h1 : (aiStep env1 req1).fst = Except.ok t1) :
    (∀ c, req1.chat_id = some c → c ≠ "" →
      (chat env1 req1).fst = HttpResult.ok ⟨t1, c⟩) ∧
    (req1.chat_id = none ∨ req1.chat_id = some "" →
      (chat env1 req1).fst =
        HttpResult.ok ⟨t1, "chat_" ++ pyStrOfNat (env1.timeMillis / 1000)⟩) ∧
    (req1.chat_id = none → req2.chat_id = none →
      env1.timeMillis / 1000 ≠ env2.timeMillis / 1000 →
      chatIdOf env1 req1 ≠ chatIdOf env2 req2) := by
  have hok : (chat env1 req1).fst = HttpResult.ok ⟨t1, chatIdOf env1 req1⟩ := by
    have h : aiStep env1 req1 = (Except.ok t1, (aiStep env1 req1).snd) := by rw [← h1]
    rw [chat_of_aiStep_ok env1 req1 t1 _ h]
  refine ⟨?_, ?_, ?_⟩
  · intro c hc hne
    rw [hok]
    have hid : chatIdOf env1 req1 = c := by simp [chatIdOf, hc, hne]
    rw [hid]
  · intro hcase
    rw [hok]
    have hid : chatIdOf env1 req1 = "chat_" ++ pyStrOfNat (env1.timeMillis / 1000) := by
      rcases hcase with hnone | hempty
      · simp [chatIdOf, hnone]
      · simp [chatIdOf, hempty]
    rw [hid]
  · intro hn1 hn2 hne heq
    simp [chatIdOf, hn1, hn2] at heq
    exact hne (pyStrOfNat_inj (chat_prepend_inj heq))

/-- C5 witness: a supplied id `"c1"` is preserved, an absent id yields
`"chat_100"`, and creations at seconds 100 and 230 get distinct ids. -/
theorem C5_amended_chat_id_witness :
    (chat baseEnv reqHist).fst = HttpResult.ok ⟨"HELLO", "c1"⟩ ∧
    (chat baseEnv reqHi).fst = HttpResult.ok ⟨"HELLO", "chat_100"⟩ ∧
    chatIdOf baseEnv reqHi ≠ chatIdOf envLater reqHi :=
  ⟨(C5_amended_chat_id baseEnv baseEnv reqHist reqHi "HELLO" rfl).1 "c1" rfl (by decide),
   (C5_amended_chat_id baseEnv baseEnv reqHi reqHi "HELLO" rfl).2.1 (Or.inl rfl),
   (C5_amended_chat_id baseEnv envLater reqHi reqHi "HELLO" rfl).2.2 rfl rfl (by decide)⟩

/-- C8 counterexample: with neither AI client initialized the request is
rejected, but with HTTP status 500 — a *server* error, not the client
error the claim states — and an empty call trace. -/
theorem C8_counterexample :
    (chat envNone reqHi).fst = HttpResult.error 500 "AI models not initialized" ∧
    isClientError 500 = false ∧
    (chat envNone reqHi).snd = [] :=
  ⟨rfl, rfl, rfl⟩

/-- C8 (amended): if neither AI client is initialized the handler rejects
the request with a *server* error (HTTP 500, detail
`"AI models not initialized"`) before invoking any provider (empty trace);
if at least one client is initialized, this rejection does not occur. -/
theorem C8_uninitialized_rejection (env : Env) (req : ChatRequest) :
    (env.modelAvailable = false ∧ env.visionAvailable = false →
      chat env req = (HttpResult.error 500 "AI models not initialized", [])) ∧
    (env.modelAvailable = true ∨ env.visionAvailable = true →
      (chat env req).fst ≠ HttpResult.error 500 "AI models not initialized") := by
  constructor
  · rintro ⟨hm, hv⟩
    rw [chat, if_pos ⟨by simp [hm], by simp [hv]⟩]
  · intro hav
    have hguard : ¬ (¬ env.modelAvailable ∧ ¬ env.visionAvailable) := by
      rcases hav with h | h <;> simp [h]
    rcases hp : aiStep env req with ⟨res, evs⟩
    cases res with
    | ok t =>
        rw [chat_of_aiStep_ok env req t evs hp]
        simp
    | error e =>
        rw [chat_of_aiStep_error env req e evs hguard hp]
        intro hcontra
        injection hcontra with h1 h2
        exact anErrorOccurred_ne e h2

/-- C8 witness: the rejection with both clients `None`, and its absence with
only the text client initialized. -/
theorem C8_uninitialized_rejection_witness :
    chat envNone reqHi = (HttpResult.error 500 "AI models not initialized", []) ∧
    (chat envTextOnly reqHi).fst ≠ HttpResult.error 500 "AI models not initialized" :=
  ⟨(C8_uninitialized_rejection envNone reqHi).1 ⟨rfl, rfl⟩,
   (C8_uninitialized_rejection envTextOnly reqHi).2 (Or.inl rfl)⟩

/-- C2: for every request with a non-empty screenshot, no text-path provider
call (`start_chat`/`send_message`) ever appears in the trace; every vision
call carries exactly the prompt and the decoded image bytes — a shape with
no room for `chat_history`; and when the payload decodes and the vision
client exists, that call is indeed issued. -/
theorem C2_vision_path_ignores_history (env : Env) (req : ChatRequest)
    (hs : strTruthy req.screenshot = true) :
    (∀ h, Event.startChat h ∉ (chat env req).snd) ∧
    (∀ p, Event.sendMessage p ∉ (chat env req).snd) ∧
    (∀ cs, Event.visionGenerate cs ∈ (chat env req).snd →
      ∃ bytes, pyB64Decode (pySplitCommaIndex1 (req.screenshot.getD "")) = Except.ok bytes ∧
        cs = [GenPart.text req.prompt, GenPart.image "image/jpeg" bytes]) ∧
    (∀ bytes, pyB64Decode (pySplitCommaIndex1 (req.screenshot.getD "")) = Except.ok bytes →
      env.visionAvailable = true →
      Event.visionGenerate [GenPart.text req.prompt, GenPart.image "image/jpeg" bytes] ∈
        (chat env req).snd) := by
  have haistep : aiStep env req = visionBranch env req (req.screenshot.getD "") := by
    rw [aiStep, if_pos hs]
  by_cases hguard : ¬ env.modelAvailable ∧ ¬ env.visionAvailable
  · have htr : (chat env req).snd = [] := by rw [chat, if_pos hguard]
    refine ⟨by simp [htr], by simp [htr], by simp [htr], ?_⟩
    intro bs hdec hv
    exact absurd hv (by simpa using hguard.2)
  · rcases hdec : pyB64Decode (pySplitCommaIndex1 (req.screenshot.getD "")) with e | bs
    · have hstep : aiStep env req =
          (Except.error (strHTTPException 500 ("Vision model error: " ++ e)), []) := by
        rw [haistep]; simp [visionBranch, hdec]
      have htr : (chat env req).snd = [] := by
        rw [chat_of_aiStep_error env req _ _ hguard hstep]
      refine ⟨by simp [htr], by simp [htr], by simp [htr], ?_⟩
      intro bs hdec2 hv
      simp at hdec2
    · by_cases hv : env.visionAvailable
      · rcases hgen : env.visionGen
            [GenPart.text req.prompt, GenPart.image "image/jpeg" bs] with e | t
        · have hstep : aiStep env req =
              (Except.error (strHTTPException 500 ("Vision model error: " ++ e)),
               [Event.visionGenerate
                 [GenPart.text req.prompt, GenPart.image "image/jpeg" bs]]) := by
            rw [haistep]; simp [visionBranch, hdec, hv, hgen]
          have htr : (chat env req).snd =
              [Event.visionGenerate
                [GenPart.text req.prompt, GenPart.image "image/jpeg" bs]] := by
            rw [chat_of_aiStep_error env req _ _ hguard hstep]
          refine ⟨by simp [htr], by simp [htr], ?_, ?_⟩
          · intro cs hmem
            rw [htr] at hmem
            simp at hmem
            exact ⟨bs, rfl, hmem⟩
          · intro bs2 hdec2 _
            have hb : bs = bs2 := by injection hdec2
            rw [htr, ← hb]
            simp
        · have hstep : aiStep env req =
              (Except.ok t,
               [Event.visionGenerate
                 [GenPart.text req.prompt, GenPart.image "image/jpeg" bs]]) := by
            rw [haistep]; simp [visionBranch, hdec, hv, hgen]
          obtain ⟨l, htr⟩ := chat_snd_ok_form env req t _ hstep
          refine ⟨?_, ?_, ?_, ?_⟩
          · intro h hmem
            rw [htr] at hmem
            simp [List.mem_append, List.mem_map] at hmem
          · intro p hmem
            rw [htr] at hmem
            simp [List.mem_append, List.mem_map] at hmem
          · intro cs hmem
            rw [htr] at hmem
            simp [List.mem_append, List.mem_map] at hmem
            exact ⟨bs, rfl, hmem⟩
          · intro bs2 hdec2 _
            have hb : bs = bs2 := by injection hdec2
            rw [htr, ← hb]
            simp
      · have hstep : aiStep env req =
            (Except.error (strHTTPException 500
              ("Vision model error: " ++ noneAttrError "generate_content")), []) := by
          rw [haistep]; simp [visionBranch, hdec, hv]
        have htr : (chat env req).snd = [] := by
          rw [chat_of_aiStep_error env req _ _ hguard hstep]
        refine ⟨by simp [htr], by simp [htr], by simp [htr], ?_⟩
        intro bs2 hdec2 hv2
        exact absurd hv2 (by simpa using hv)

/-- C2 witness: with a decodable screenshot the trace holds exactly the
vision call with the prompt and the decoded bytes, and no text-path call. -/
theorem C2_vision_path_ignores_history_witness :
    strTruthy reqShot.screenshot = true ∧
    Event.startChat [] ∉ (chat baseEnv reqShot).snd ∧
    Event.sendMessage "look" ∉ (chat baseEnv reqShot).snd ∧
    Event.visionGenerate [GenPart.text "look", GenPart.image "image/jpeg" [0, 0, 0]] ∈
      (chat baseEnv reqShot).snd :=
  ⟨rfl,
   (C2_vision_path_ignores_history baseEnv reqShot rfl).1 [],
   (C2_vision_path_ignores_history baseEnv reqShot rfl).2.1 "look",
   (C2_vision_path_ignores_history baseEnv reqShot rfl).2.2.2 [0, 0, 0] rfl rfl⟩

/-- C3: for every request without a screenshot, when the text client is
initialized the provider calls are exactly `start_chat` with the reshaped
history followed by `send_message` with the new prompt; the reshaped
history preserves length, order and content, and maps every role other
than exactly `"user"` to `"model"`. -/
theorem C3_text_path_replays_history (env : Env) (req : ChatRequest)
    (hs : strTruthy req.screenshot = false) (hm : env.modelAvailable = true) :
    providerEvents (chat env req).snd =
      [Event.startChat (historyOf req.chat_history), Event.sendMessage req.prompt] ∧
    (∀ i : Nat, ((historyOf req.chat_history)[i]?).map GeminiMsg.role =
      (req.chat_history[i]?).map
        (fun m => if m.role = some "user" then "user" else "model")) ∧
    (∀ i : Nat, ((historyOf req.chat_history)[i]?).map GeminiMsg.parts =
      (req.chat_history[i]?).map (fun m => [m.content.getD ""])) := by
  refine ⟨?_, ?_, ?_⟩
  · have haistep : aiStep env req =
        textBranch env (historyOf req.chat_history) req.prompt := by
      rw [aiStep, if_neg (by simp [hs])]
    have hguard : ¬ (¬ env.modelAvailable ∧ ¬ env.visionAvailable) := by simp [hm]
    rcases hgen : env.textGen (historyOf req.chat_history) req.prompt with e | t
    · have hstep : aiStep env req = (Except.error e,
          [Event.startChat (historyOf req.chat_history),
           Event.sendMessage req.prompt]) := by
        rw [haistep]; simp [textBranch, hm, hgen]
      have htr : (chat env req).snd =
          [Event.startChat (historyOf req.chat_history),
           Event.sendMessage req.prompt] := by
        rw [chat_of_aiStep_error env req _ _ hguard hstep]
      rw [htr]
      rfl
    · have hstep : aiStep env req = (Except.ok t,
          [Event.startChat (historyOf req.chat_history),
           Event.sendMessage req.prompt]) := by
        rw [haistep]; simp [textBranch, hm, hgen]
      obtain ⟨l, htr⟩ := chat_snd_ok_form env req t _ hstep
      rw [htr, providerEvents_append, providerEvents_map_store]
      simp [providerEvents]
  · intro i
    simp only [historyOf, List.getElem?_map]
    cases hx : req.chat_history[i]? <;> rfl
  · intro i
    simp only [historyOf, List.getElem?_map]
    cases hx : req.chat_history[i]? <;> rfl

/-- C3 witness: a two-entry history (an `assistant` turn, then a `user` turn
with no content) is replayed in order as `model`/`user` before the prompt. -/
theorem C3_text_path_replays_history_witness :
    providerEvents (chat baseEnv reqHist).snd =
      [Event.startChat [⟨"model", ["hey"]⟩, ⟨"user", [""]⟩], Event.sendMessage "Hi"] :=
  (C3_text_path_replays_history baseEnv reqHist rfl rfl).1

/-- C6: whatever metadata upsert the handler issues carries as `title` the
prompt verbatim when it has at most 50 characters and its first 50
characters followed by `"..."` otherwise, and as `last_message` the same
rule at threshold 100 applied to the AI response of the 200 body. -/
theorem C6_title_last_message_truncation (env : Env) (req : ChatRequest)
    (uid cid t l : String) (mg : Bool)
    (h : Event.storeAttempt (StoreOp.setChatMetadata uid cid t l mg) ∈
      (chat env req).snd) :
    ∃ ai, (chat env req).fst = HttpResult.ok ⟨ai, cid⟩ ∧
      t = (if req.prompt.length ≤ 50 then req.prompt else req.prompt.take 50 ++ "...") ∧
      l = (if ai.length ≤ 100 then ai else ai.take 100 ++ "...") ∧
      uid = req.user_id ∧ mg = true := by
  by_cases hguard : ¬ env.modelAvailable ∧ ¬ env.visionAvailable
  · rw [chat, if_pos hguard] at h
    simp at h
  · rcases hp : aiStep env req with ⟨res, evs⟩
    cases res with
    | error e =>
        rw [chat_of_aiStep_error env req e evs hguard hp] at h
        have hns := aiStep_no_store env req (StoreOp.setChatMetadata uid cid t l mg)
        rw [hp] at hns
        exact absurd h hns
    | ok ai =>
        rw [chat_of_aiStep_ok env req ai evs hp] at h
        rcases List.mem_append.mp h with h1 | h2
        · have hns := aiStep_no_store env req (StoreOp.setChatMetadata uid cid t l mg)
          rw [hp] at hns
          exact absurd h1 hns
        · by_cases hdb : env.dbAvailable
          · rw [if_pos hdb] at h2
            obtain ⟨op, hopmem, hopeq⟩ := List.mem_map.mp h2
            have hop : op = StoreOp.setChatMetadata uid cid t l mg := by
              injection hopeq
            subst hop
            have hsub : StoreOp.setChatMetadata uid cid t l mg ∈
                persistOps req (chatIdOf env req) ai :=
              (runStoreOps_prefixOf _ 0 _).sublist.subset hopmem
            simp [persistOps] at hsub
            obtain ⟨huid, hcid, ht, hl, hmg⟩ := hsub
            refine ⟨ai, ?_, ?_, ?_, huid, hmg⟩
            · have hpair : aiStep env req = (Except.ok ai, evs) := hp
              rw [chat_of_aiStep_ok env req ai evs hpair, hcid]
            · rw [ht, pyTruncate_spec]
            · rw [hl, pyTruncate_spec]
          · rw [if_neg hdb] at h2
            simp at h2

/-- C6 witness: the concrete metadata upsert of a short prompt stores both
fields verbatim. -/
theorem C6_title_last_message_truncation_witness :
    Event.storeAttempt (StoreOp.setChatMetadata "u1" "chat_100" "Hi" "HELLO" true) ∈
      (chat baseEnv reqHi).snd ∧
    (∃ ai, (chat baseEnv reqHi).fst = HttpResult.ok ⟨ai, "chat_100"⟩ ∧
      "Hi" = (if reqHi.prompt.length ≤ 50 then reqHi.prompt
              else reqHi.prompt.take 50 ++ "...") ∧
      "HELLO" = (if ai.length ≤ 100 then ai else ai.take 100 ++ "...") ∧
      "u1" = reqHi.user_id ∧ true = true) :=
  ⟨by decide,
   C6_title_last_message_truncation baseEnv reqHi "u1" "chat_100" "Hi" "HELLO" true
     (by decide)⟩

/-- C7 counterexample: the screenshot `"x,AAAA,XX"` is malformed base64
after stripping everything up to the first comma (the claim's reading), yet
the handler decodes `split(",")[1] = "AAAA"` and returns a 200 success —
not the claimed server error.  And with both AI clients uninitialized, a
malformed screenshot is answered with `"AI models not initialized"`, whose
detail does not include any decode-error text. -/
theorem C7_counterexample :
    reqShotComma.screenshot = some "x,AAAA,XX" ∧
    pyB64Decode (stripToFirstComma "x,AAAA,XX") = Except.error "Incorrect padding" ∧
    pyB64Decode (pySplitCommaIndex1 "x,AAAA,XX") = Except.ok [0, 0, 0] ∧
    (chat baseEnv reqShotComma).fst = HttpResult.ok ⟨"VISION", "chat_100"⟩ ∧
    pyB64Decode (pySplitCommaIndex1 "AB") = Except.error "Incorrect padding" ∧
    chat envNone reqShotBad = (HttpResult.error 500 "AI models not initialized", []) :=
  ⟨rfl, rfl, rfl, rfl, rfl, rfl⟩

/-- C7 (amended): for every request whose screenshot payload *as the code
selects it* (`split(",")[1]` when a comma is present, the whole string
otherwise) fails base64 decoding, provided at least one AI client is
initialized, the handler returns a 500 whose detail wraps and therefore
includes the upstream decode-error text, and never a success body. -/
theorem C7_malformed_screenshot_error (env : Env) (req : ChatRequest) (s e : String)
    (hs : req.screenshot = some s)
    (hdec : pyB64Decode (pySplitCommaIndex1 s) = Except.error e)
    (hav : env.modelAvailable = true ∨ env.visionAvailable = true) :
    (chat env req).fst =
      HttpResult.error 500
        ("An error occurred: " ++ strHTTPException 500 ("Vision model error: " ++ e)) ∧
    ∀ body, (chat env req).fst ≠ HttpResult.ok body := by
  have hne : s ≠ "" := by
    intro h0
    have hok : pyB64Decode (pySplitCommaIndex1 s) = Except.ok [] := by
      rw [h0]; rfl
    rw [hok] at hdec
    simp at hdec
  have hst : strTruthy req.screenshot = true := by
    rw [hs]; simp [strTruthy, hne]
  have hguard : ¬ (¬ env.modelAvailable ∧ ¬ env.visionAvailable) := by
    rcases hav with h | h <;> simp [h]
  have hstep : aiStep env req =
      (Except.error (strHTTPException 500 ("Vision model error: " ++ e)), []) := by
    rw [aiStep, if_pos hst, hs]
    simp [Option.getD, visionBranch, hdec]
  constructor
  · rw [chat_of_aiStep_error env req _ _ hguard hstep]
  · intro body
    rw [chat_of_aiStep_error env req _ _ hguard hstep]
    simp

/-- C7 witness: the malformed payload `"AB"` yields the wrapped 500 detail
ending in the upstream `Incorrect padding` message. -/
theorem C7_malformed_screenshot_error_witness :
    (chat envTextOnly reqShotBad).fst =
      HttpResult.error 500
        ("An error occurred: " ++
          strHTTPException 500 ("Vision model error: " ++ "Incorrect padding")) :=
  (C7_malformed_screenshot_error envTextOnly reqShotBad "AB" "Incorrect padding"
    rfl rfl (Or.inl rfl)).1

/-- C9: within a request that reaches the persistence step (store available,
AI call succeeded), the issued store writes form a prefix of
`[user append, assistant append, metadata upsert]`; consequently every
issued prefix containing the metadata upsert already contains both message
appends. -/
theorem C9_persistence_order (env : Env) (req : ChatRequest) (t : String)
    (hdb : env.dbAvailable = true) (hai : (aiStep env req).fst = Except.ok t) :
    storeOpsOf (chat env req).snd <+: persistOps req (chatIdOf env req) t ∧
    (∀ l, l <+: storeOpsOf (chat env req).snd →
      StoreOp.setChatMetadata req.user_id (chatIdOf env req)
        (pyTruncate 50 req.prompt) (pyTruncate 100 t) true ∈ l →
      StoreOp.addMessage req.user_id (chatIdOf env req) req.prompt "user"
        (strTruthy req.screenshot) ∈ l ∧
      StoreOp.addMessage req.user_id (chatIdOf env req) t "assistant" false ∈ l) := by
  have hpair : aiStep env req = (Except.ok t, (aiStep env req).snd) := by rw [← hai]
  have hchat := chat_of_aiStep_ok env req t _ hpair
  have hsnd : (chat env req).snd = (aiStep env req).snd ++
      (runStoreOps env.storeFails 0 (persistOps req (chatIdOf env req) t)).map
        Event.storeAttempt := by
    rw [hchat]
    simp [hdb]
  have hso : storeOpsOf (chat env req).snd =
      runStoreOps env.storeFails 0 (persistOps req (chatIdOf env req) t) := by
    rw [hsnd, storeOpsOf_append, storeOpsOf_eq_nil _ (aiStep_no_store env req),
      storeOpsOf_map_store]
    simp
  constructor
  · rw [hso]
    exact runStoreOps_prefixOf _ 0 _
  · intro l hl hmeta
    have hl2 : l <+: persistOps req (chatIdOf env req) t := by
      rw [hso] at hl
      exact hl.trans (runStoreOps_prefixOf _ 0 _)
    obtain ⟨rest, hrest⟩ := hl2
    rcases l with _ | ⟨x1, l1⟩
    · simp at hmeta
    rcases l1 with _ | ⟨x2, l2⟩
    · simp [persistOps] at hrest
      obtain ⟨hx1, -⟩ := hrest
      subst hx1
      simp at hmeta
    rcases l2 with _ | ⟨x3, l3⟩
    · simp [persistOps] at hrest
      obtain ⟨hx1, hx2, -⟩ := hrest
      subst hx1
      subst hx2
      simp at hmeta
    · simp [persistOps] at hrest
      obtain ⟨hx1, hx2, hx3, -⟩ := hrest
      subst hx1
      subst hx2
      subst hx3
      constructor <;> simp

/-- C9 witness: with the assistant append raising, the issued writes
`[user append, assistant append]` are a prefix of the full plan. -/
theorem C9_persistence_order_witness :
    storeOpsOf (chat envStoreFail1 reqHi).snd <+: persistOps reqHi "chat_100" "HELLO" :=
  (C9_persistence_order envStoreFail1 reqHi "HELLO" rfl rfl).1

/-- C10: with exactly one AI client initialized the availability check never
rejects with `"AI models not initialized"`; a request that needs the
missing client instead fails through the catch-all handler with a 500
whose detail is prefixed `"An error occurred: "` and wraps the
`AttributeError` from dereferencing `None`. -/
theorem C10_partial_initialization (env : Env) (req : ChatRequest)
    (hone : (env.modelAvailable = true ∧ env.visionAvailable = false) ∨
            (env.modelAvailable = false ∧ env.visionAvailable = true)) :
    (chat env req).fst ≠ HttpResult.error 500 "AI models not initialized" ∧
    (env.modelAvailable = false → strTruthy req.screenshot = false →
      (chat env req).fst =
        HttpResult.error 500 ("An error occurred: " ++ noneAttrError "start_chat")) ∧
    (env.visionAvailable = false → strTruthy req.screenshot = true →
      ∀ bytes, pyB64Decode (pySplitCommaIndex1 (req.screenshot.getD "")) =
          Except.ok bytes →
        (chat env req).fst =
          HttpResult.error 500
            ("An error occurred: " ++
              strHTTPException 500
                ("Vision model error: " ++ noneAttrError "generate_content"))) := by
  have hguard : ¬ (¬ env.modelAvailable ∧ ¬ env.visionAvailable) := by
    rcases hone with ⟨h, -⟩ | ⟨-, h⟩ <;> simp [h]
  refine ⟨?_, ?_, ?_⟩
  · rcases hp : aiStep env req with ⟨res, evs⟩
    cases res with
    | ok t =>
        rw [chat_of_aiStep_ok env req t evs hp]
        simp
    | error e =>
        rw [chat_of_aiStep_error env req e evs hguard hp]
        intro hcontra
        injection hcontra with h1 h2
        exact anErrorOccurred_ne e h2
  · intro hm hs
    have hstep : aiStep env req = (Except.error (noneAttrError "start_chat"), []) := by
      rw [aiStep, if_neg (by simp [hs])]
      simp [textBranch, hm]
    rw [chat_of_aiStep_error env req _ _ hguard hstep]
  · intro hv hs bytes hdec
    have hstep : aiStep env req =
        (Except.error (strHTTPException 500
          ("Vision model error: " ++ noneAttrError "generate_content")), []) := by
      rw [aiStep, if_pos hs]
      simp [visionBranch, hdec, hv]
    rw [chat_of_aiStep_error env req _ _ hguard hstep]

/-- C10 witness: a text request with only the vision client, and a vision
request with only the text client, both fail through the catch-all with the
`AttributeError` detail. -/
theorem C10_partial_initialization_witness :
    (chat envVisionOnly reqHi).fst =
      HttpResult.error 500 ("An error occurred: " ++ noneAttrError "start_chat") ∧
    (chat envTextOnly reqShot).fst =
      HttpResult.error 500
        ("An error occurred: " ++
          strHTTPException 500
            ("Vision model error: " ++ noneAttrError "generate_content")) :=
  ⟨(C10_partial_initialization envVisionOnly reqHi (Or.inr ⟨rfl, rfl⟩)).2.1 rfl rfl,
   (C10_partial_initialization envTextOnly reqShot (Or.inl ⟨rfl, rfl⟩)).2.2 rfl rfl
     [0, 0, 0] rfl⟩

end ChattyAI
